import Mathlib

/-!
Verification development for the EventBridge rule reconciliation plugin
(`src/rule/lambda_function.py`).  The Python source is shallowly embedded:
dictionaries become association lists, optional/absent keys become `Option`,
the operation queue (`eh.add_op`) becomes a returned list of `Op` values, and
outcomes of remote calls (`eh.perm_error`, `eh.retry_error`, uncaught Python
exceptions) become an `ExecOutcome` value.
-/

namespace EventBridgeRule

/-- A Python `dict` with string keys and string values, as an association
list.  All dictionaries handled by the source are built from Python dicts, so
keys are unique; lookups take the first match. -/
abbrev Dict := List (String × String)

/-- `d.get(k)` on a Python dict: `some v` when the key is present, `none`
otherwise. -/
def dget (d : Dict) (k : String) : Option String :=
  (d.find? (fun kv => kv.1 == k)).map (·.2)

/-- `d.keys()` of a Python dict. -/
def dkeys (d : Dict) : List String := d.map (·.1)

/-- Python dict equality (`d1 == d2`): same key set, same value at every
key.  Checked over the keys of both lists, which decides it. -/
def dictEqb (a b : Dict) : Bool :=
  (dkeys a ++ dkeys b).all (fun k => dget a k == dget b k)

/-- One desired target specification: the value stored under a target
identifier in the `targets` mapping of the component definition (the keys
read by the formatting loop at lines 279-297 of the source).  A field is
`none` when the corresponding key is absent from the target's dict. -/
structure TargetSpec where
  arn : Option String := none
  role_arn : Option String := none
  input : Option String := none
  input_path : Option String := none
  http_path_parameter_values : Option (List String) := none
  http_header_parameters : Option (List (String × String)) := none
  http_query_string_parameters : Option (List (String × String)) := none
  dead_letter_queue_arn : Option String := none
  maximum_retry_attempts : Option Int := none
  maximum_event_age_in_seconds : Option Int := none
deriving DecidableEq

/-- The nested `HttpParameters` wire structure (lines 285-289); sub-fields
absent after `remove_none_attributes` are `none`. -/
structure HttpParameters where
  pathParameterValues : Option (List String)
  headerParameters : Option (List (String × String))
  queryStringParameters : Option (List (String × String))
deriving DecidableEq

/-- The nested `RetryPolicy` wire structure (lines 293-296). -/
structure RetryPolicy where
  maximumRetryAttempts : Option Int
  maximumEventAgeInSeconds : Option Int
deriving DecidableEq

/-- One formatted target as produced by the loop at lines 278-298: the dict
passed to `put_targets`, with `remove_none_attributes` reflected by `Option`
fields (a `none` field is an absent key). -/
structure FormattedTarget where
  id : String
  arn : Option String
  roleArn : Option String
  input : Option String
  inputPath : Option String
  httpParameters : Option HttpParameters
  deadLetterConfigArn : Option String
  retryPolicy : Option RetryPolicy
deriving DecidableEq

/-- Python truthiness filter `x if x else None` applied to an optional list
value (lines 286-288): a present but empty list is replaced by `None`. -/
def listTruthy (o : Option (List α)) : Option (List α) :=
  match o with
  | some l => if l.isEmpty then none else some l
  | none => none

/-- Python truthiness filter for an optional string (`... if item.get(k) else
None`): a present but empty string counts as falsy. -/
def strTruthy (o : Option String) : Option String :=
  match o with
  | some s => if s == "" then none else some s
  | none => none

/-- Wire-format construction of one desired target, lines 279-297:
`formatted_target = remove_none_attributes({...})`.  `HttpParameters` is
included exactly when at least one of the three `http_*` keys is present in
the item (`any(http_key in item ...)`, line 289), and `RetryPolicy` exactly
when at least one of the two retry keys is present (line 296); the
`DeadLetterConfig` is included when `dead_letter_queue_arn` is truthy
(line 292). -/
def build_target (id : String) (item : TargetSpec) : FormattedTarget :=
  { id := id
    arn := item.arn
    roleArn := item.role_arn
    input := item.input
    inputPath := item.input_path
    httpParameters :=
      if item.http_path_parameter_values.isSome
          || item.http_header_parameters.isSome
          || item.http_query_string_parameters.isSome then
        some { pathParameterValues := listTruthy item.http_path_parameter_values
               headerParameters := listTruthy item.http_header_parameters
               queryStringParameters := listTruthy item.http_query_string_parameters }
      else none
    deadLetterConfigArn := strTruthy item.dead_letter_queue_arn
    retryPolicy :=
      if item.maximum_retry_attempts.isSome
          || item.maximum_event_age_in_seconds.isSome then
        some { maximumRetryAttempts := item.maximum_retry_attempts
               maximumEventAgeInSeconds := item.maximum_event_age_in_seconds }
      else none }

/-- A queued operation (`eh.add_op(name, payload)`), tagged by name with its
payload. -/
inductive Op where
  | updateRule
  | removeTags (keys : List String)
  | setTags (tags : Dict)
  | removeTargets (ids : List String)
  | putTargets (targets : List FormattedTarget)
  | addLambdaPermissions (arns : List String)
  | addSnsPermissions (arns : List String)
  | addSqsPermissions (arns : List String)
deriving DecidableEq

/-- The canonical desired attributes built at lines 97-106, split by facet:
`core` holds the describe-comparable keys (Name, ScheduleExpression,
EventPattern, State, Description, RoleArn — those not removed by
`remove_none_attributes`), `tags` the optional `Tags` entry as key/value
pairs (`none` when the component definition had no truthy tags), and
`targets` the `Targets` mapping keyed by target identifier in insertion
order. -/
structure Attributes where
  core : Dict
  tags : Option Dict
  targets : List (String × TargetSpec)

/-- `comparable_response` of line 222: the describe-rule response restricted
to the keys of the comparable desired attributes. -/
def comparable_response (core resp : Dict) : Dict :=
  resp.filter (fun kv => (dkeys core).contains kv.1)

/-- Core-attribute facet of the diff, lines 221-224: queue `update_rule` iff
the comparable projections differ as dicts. -/
def core_diff (core resp : Dict) : List Op :=
  if ¬ dictEqb core (comparable_response core resp) then [Op.updateRule] else []

/-- Python truthiness of the optional `attributes.get("Tags")` list
(line 237). -/
def tagsTruthy (o : Option Dict) : Bool :=
  match o with
  | some l => !l.isEmpty
  | none => false

/-- Tag facet of the diff, lines 237-252.  `attrTags` is
`attributes.get("Tags")` (as key/value pairs), `current_tags` the observed
tag dict parsed at line 234.  Queue order follows the source: `remove_tags`
(line 246) before `set_tags` (line 248). -/
def tags_diff (attrTags : Option Dict) (current_tags : Dict) : List Op :=
  if tagsTruthy attrTags then
    let formatted_tags : Dict := attrTags.getD []
    if ¬ dictEqb formatted_tags current_tags then
      let remove_tags := (dkeys current_tags).filter
        (fun k => !((dkeys formatted_tags).contains k))
      let add_tags := formatted_tags.filter
        (fun kv => !(dget current_tags kv.1 == some kv.2))
      (if remove_tags.isEmpty then [] else [Op.removeTags remove_tags]) ++
      (if add_tags.isEmpty then [] else [Op.setTags add_tags])
    else []
  else
    if current_tags.isEmpty then [] else [Op.removeTags (dkeys current_tags)]

/-- Target facet of the diff, lines 272-301.  `observed_ids` are the `Id`
fields of `list_targets_by_rule`'s targets; `remove_targets` keeps exactly
the observed ids absent from the desired key set (line 272), and every
desired target is formatted and queued for `put_targets` (lines 276-301;
the `target not in remove_targets` filter at line 276 never excludes a
desired key, as proved below). -/
def targets_diff (targets : List (String × TargetSpec)) (observed_ids : List String) :
    List Op :=
  let remove_targets := observed_ids.filter
    (fun i => !((targets.map (·.1)).contains i))
  let formatted_put_targets :=
    (targets.filter (fun kv => !(remove_targets.contains kv.1))).map
      (fun kv => build_target kv.1 kv.2)
  (if remove_targets.isEmpty then [] else [Op.removeTargets remove_targets]) ++
  (if formatted_put_targets.isEmpty then [] else [Op.putTargets formatted_put_targets])

/-- The whole diff pass of `get_rule` for an existing rule, lines 221-301:
core facet, then tag facet, then target facet, in queue order. -/
def get_rule_diff (attrs : Attributes) (resp : Dict) (current_tags : Dict)
    (observed_ids : List String) : List Op :=
  core_diff attrs.core resp ++ tags_diff attrs.tags current_tags ++
    targets_diff attrs.targets observed_ids

/-! ### Rule name selection and the rename check (lines 83, 116-131) -/

/-- Python truthiness of an optional string: `None` and `""` are falsy. -/
def truthyOptStr : Option String → Bool
  | some s => !(s == "")
  | none => false

/-- Line 83: `name = prev_state.get("props", {}).get("name") or
cdef.get("name") or component_safe_name(...)`.  `generated` stands for the
`component_safe_name` result. -/
def effective_name (prev_name cdef_name : Option String) (generated : String) :
    String :=
  if truthyOptStr prev_name then prev_name.getD ""
  else if truthyOptStr cdef_name then cdef_name.getD ""
  else generated

/-- Lines 116-127: `old_name` is the previous-state name (`None` when
absent), and the rename rejection fires iff `old_name and old_name != name`
with `name` the effective name of line 83. -/
def rename_rejected (prev_name cdef_name : Option String) (generated : String) :
    Bool :=
  truthyOptStr prev_name &&
    !(prev_name.getD "" == effective_name prev_name cdef_name generated)

/-! ### Executor outcomes -/

/-- A Python exception that escapes the operation's own handlers and reaches
the top-level `except Exception` of `lambda_handler` (lines 176-181), which
reports a generic failure. -/
inductive PyError where
  /-- Reading a local variable (here `e`) that was never assigned:
  `UnboundLocalError`, a `NameError`. -/
  | nameError
  /-- Iterating over `None` in a list comprehension. -/
  | typeError
  /-- Calling `.startswith` on `None`. -/
  | attributeError
deriving DecidableEq

/-- The observable outcome of executing one queued operation. -/
inductive ExecOutcome where
  /-- The operation completed and was removed from the queue. -/
  | success
  /-- `eh.perm_error(...)`: the reconciliation fails permanently with a
  descriptive message. -/
  | permError
  /-- `eh.retry_error(...)`: the operation stays queued and is retried. -/
  | retryError
  /-- The error was delegated to `handle_common_errors` (from the external
  `extutil` library, out of scope here). -/
  | handledCommonError
  /-- A `ClientError` re-raised by `raise e`, escaping to the top level. -/
  | reraisedClientError
  /-- A Python exception escaped to the top-level generic handler. -/
  | raised (e : PyError)
deriving DecidableEq

/-- One entry of the `FailedEntries` list of a bulk `put_targets` /
`remove_targets` response. -/
structure BatchFailedEntry where
  targetId : String
  errorCode : String
  errorMessage : String
deriving DecidableEq

/-- The parts of a bulk-operation response read by the source:
`FailedEntryCount` and `FailedEntries`. -/
structure BatchResponse where
  failedEntryCount : Nat
  failedEntries : List BatchFailedEntry
deriving DecidableEq

/-- The retryable error codes of `put_targets`, line 509. -/
def put_targets_retry_codes : List String :=
  ["ResourceNotFoundException", "InternalException",
   "ConcurrentModificationException", "LimitExceededException"]

/-- Partial-batch handling of `put_targets`, lines 507-517.  Both branches
evaluate `str(e)` in their `eh.add_log` calls (lines 512 and 516) — and the
permanent branch also in `eh.perm_error(str(e), 80)` (line 513) — but `e` is
an unassigned local variable there (it is only ever bound by the later
`except ... as e` clauses), so any response with a nonzero failed-entry
count raises `UnboundLocalError` before `eh.perm_error` or `eh.retry_error`
can run. -/
def put_targets_handle_response (resp : BatchResponse) : ExecOutcome :=
  if resp.failedEntryCount > 0 then
    if resp.failedEntries.all
        (fun item => !(put_targets_retry_codes.contains item.errorCode)) then
      -- intended permanent failure (lines 511-513); `str(e)` raises first
      ExecOutcome.raised PyError.nameError
    else
      -- intended whole-batch retry (lines 515-517); the loop runs at least
      -- once here and its `str(e)` raises first
      ExecOutcome.raised PyError.nameError
  else
    ExecOutcome.success

/-- Partial-batch handling of `remove_targets`, lines 556-569.  All three
branches — all-`ResourceNotFoundException` treated as "targets already
deleted" success (lines 559-561), all-`ManagedRuleException` permanent
failure (lines 562-565), otherwise whole-batch retry (lines 566-569) —
evaluate `str(e)` in an `eh.add_log` call with `e` unassigned, so any
response with a nonzero failed-entry count raises `UnboundLocalError`. -/
def remove_targets_handle_response (resp : BatchResponse) : ExecOutcome :=
  if resp.failedEntryCount > 0 then
    if resp.failedEntries.all
        (fun item => item.errorCode == "ResourceNotFoundException") then
      -- intended `return 0` success (line 561); line 560's `str(e)` raises
      ExecOutcome.raised PyError.nameError
    else if resp.failedEntries.all
        (fun item => item.errorCode == "ManagedRuleException") then
      ExecOutcome.raised PyError.nameError
    else
      ExecOutcome.raised PyError.nameError
  else
    ExecOutcome.success

/-- The describe/delete-call exception classes handled by `delete_rule`
(lines 757-777). -/
inductive DeleteRuleResp where
  | ok
  | concurrentModificationException
  | managedRuleException
  | internalException
  | resourceNotFoundException
  | otherClientError
deriving DecidableEq

/-- Outcome classification of `delete_rule`, lines 753-777.  A
`ResourceNotFoundException` is logged (with `e` bound by its `except`
clause) and followed by `return 0`: success. -/
def delete_rule_outcome : DeleteRuleResp → ExecOutcome
  | DeleteRuleResp.ok => ExecOutcome.success
  | DeleteRuleResp.concurrentModificationException => ExecOutcome.retryError
  | DeleteRuleResp.managedRuleException => ExecOutcome.permError
  | DeleteRuleResp.internalException => ExecOutcome.retryError
  | DeleteRuleResp.resourceNotFoundException => ExecOutcome.success
  | DeleteRuleResp.otherClientError => ExecOutcome.handledCommonError

/-! ### Permission propagation (lines 594-751, 784-795) -/

/-- `analyze_type_of_arn`, lines 784-795. -/
def analyze_type_of_arn (arn : String) : String :=
  if arn.startsWith "arn:aws:lambda" then "lambda"
  else if arn.startsWith "arn:aws:sns" then "sns"
  else if arn.startsWith "arn:aws:sqs" then "sqs"
  else "not_supported_or_unnecessary"

/-- The classification loop of `add_permissions_for_targets`, lines 600-613,
as a recursion over the put-targets payload: each target's `Arn` is grouped
into the lambda / sns / sqs list in iteration order, anything else is
skipped.  A target whose `Arn` key is absent makes `analyze_type_of_arn`
call `None.startswith`, raising `AttributeError`. -/
def classify_targets : List FormattedTarget →
    Except PyError (List String × List String × List String)
  | [] => Except.ok ([], [], [])
  | t :: rest =>
    match t.arn with
    | none => Except.error PyError.attributeError
    | some a =>
      match classify_targets rest with
      | Except.error e => Except.error e
      | Except.ok (ls, ss, qs) =>
        if analyze_type_of_arn a == "lambda" then Except.ok (a :: ls, ss, qs)
        else if analyze_type_of_arn a == "sns" then Except.ok (ls, a :: ss, qs)
        else if analyze_type_of_arn a == "sqs" then Except.ok (ls, ss, a :: qs)
        else Except.ok (ls, ss, qs)

/-- `add_permissions_for_targets`, lines 594-622: group the newly-put
targets by destination kind and queue one grant operation per nonempty
group (lines 615-620). -/
def add_permissions_for_targets (ts : List FormattedTarget) :
    Except PyError (List Op) :=
  match classify_targets ts with
  | Except.error e => Except.error e
  | Except.ok (ls, ss, qs) =>
    Except.ok
      ((if ls.isEmpty then [] else [Op.addLambdaPermissions ls]) ++
       (if ss.isEmpty then [] else [Op.addSnsPermissions ss]) ++
       (if qs.isEmpty then [] else [Op.addSqsPermissions qs]))

/-- The per-function `lambda_client.add_permission` call result as seen by
`add_lambda_permissions` (lines 634-648). -/
inductive AddPermissionResp where
  | ok
  | clientError (code : String)
deriving DecidableEq

/-- Error handling of one `add_permission` call, lines 644-648: a
`ResourceConflictException` (the identical statement already exists) is
passed over as success; any other `ClientError` is re-raised. -/
def add_lambda_permission_outcome : AddPermissionResp → ExecOutcome
  | AddPermissionResp.ok => ExecOutcome.success
  | AddPermissionResp.clientError code =>
    if code == "ResourceConflictException" then ExecOutcome.success
    else ExecOutcome.reraisedClientError

/-- A policy statement, restricted to the fields the source reads or writes
(`Sid`, and the payload of the statements it appends at lines 659-667 and
706-719). -/
structure PolicyStatement where
  sid : Option String
  effect : String
  principalService : String
  action : String
  resource : String
  conditionSourceArn : Option String
deriving DecidableEq

/-- The fixed SNS statement identifier, line 658. -/
def sns_statement_id : String := "PublishEventsToMyTopic"

/-- `statement_to_add` for an SNS topic, lines 659-667. -/
def sns_statement_to_add (topicArn : String) : PolicyStatement :=
  { sid := some sns_statement_id
    effect := "Allow"
    principalService := "events.amazonaws.com"
    action := "sns:Publish"
    resource := topicArn
    conditionSourceArn := none }

/-- The pure policy rewrite of `add_sns_permissions`, lines 675-677: drop
every prior statement whose `Sid` equals the well-known identifier, then
append the new statement. -/
def sns_rewrite (stmts : List PolicyStatement) (topicArn : String) :
    List PolicyStatement :=
  (stmts.filter (fun item => !(item.sid == some sns_statement_id))) ++
    [sns_statement_to_add topicArn]

/-- Lines 673-677 of `add_sns_permissions`: `existing_policy.get("Statement")`
has NO default, so a fetched policy without a `"Statement"` key (in
particular the `"{}"` default of line 673 when the topic has no policy)
yields `None`, and the comprehension at line 675 iterating over it raises
`TypeError`.  `existingStatements` is `none` exactly in that case. -/
def sns_build_policy_statements (existingStatements : Option (List PolicyStatement))
    (topicArn : String) : Except PyError (List PolicyStatement) :=
  match existingStatements with
  | none => Except.error PyError.typeError
  | some stmts => Except.ok (sns_rewrite stmts topicArn)

/-- The SQS statement identifier, line 705. -/
def sqs_statement_id (rule_name : String) : String := "AWSEvents_" ++ rule_name

/-- The rule ARN formatted for the SQS condition, line 701. -/
def sqs_rule_arn (region account_number event_bus_name rule_name : String) :
    String :=
  "arn:aws:events:" ++ region ++ ":" ++ account_number ++ ":rule/" ++
    event_bus_name ++ "/" ++ rule_name

/-- `statement_to_add` for an SQS queue, lines 706-719. -/
def sqs_statement_to_add (queueArn rule_name sourceArn : String) :
    PolicyStatement :=
  { sid := some (sqs_statement_id rule_name)
    effect := "Allow"
    principalService := "events.amazonaws.com"
    action := "sqs:SendMessage"
    resource := queueArn
    conditionSourceArn := some sourceArn }

/-- The pure policy rewrite of `add_sqs_permissions`, lines 733-735. -/
def sqs_rewrite (stmts : List PolicyStatement) (queueArn rule_name sourceArn : String) :
    List PolicyStatement :=
  (stmts.filter (fun item => !(item.sid == some (sqs_statement_id rule_name)))) ++
    [sqs_statement_to_add queueArn rule_name sourceArn]

/-- Lines 732-736 of `add_sqs_permissions`: here
`existing_policy.get("Statement", [])` HAS the `[]` default, so an absent or
empty policy is treated as an empty statement list and the rewrite
proceeds. -/
def sqs_build_policy_statements (existingStatements : Option (List PolicyStatement))
    (queueArn rule_name sourceArn : String) : Except PyError (List PolicyStatement) :=
  Except.ok (sqs_rewrite (existingStatements.getD []) queueArn rule_name sourceArn)

/-! ### Dictionary lemmas -/

theorem dget_nil (k : String) : dget [] k = none := rfl

theorem dget_cons (kv : String × String) (d : Dict) (k : String) :
    dget (kv :: d) k = if kv.1 == k then some kv.2 else dget d k := by
  by_cases h : kv.1 == k <;> simp [dget, List.find?_cons, h]

theorem dget_isSome_iff (d : Dict) (k : String) :
    (dget d k).isSome = true ↔ k ∈ dkeys d := by
  induction d with
  | nil => simp [dget_nil, dkeys]
  | cons kv rest ih =>
    rw [dget_cons]
    by_cases h : kv.1 == k
    · have h2 : kv.1 = k := by simpa using h
      simp [h, h2, dkeys]
    · have h2 : kv.1 ≠ k := by simpa using h
      simp [h, dkeys, ih, Ne.symm h2]

theorem dget_eq_none_of_not_mem {d : Dict} {k : String} (h : k ∉ dkeys d) :
    dget d k = none := by
  cases hd : dget d k with
  | none => rfl
  | some v => exact absurd ((dget_isSome_iff d k).mp (by simp [hd])) h

theorem dictEqb_dget {a b : Dict} (h : dictEqb a b = true) (k : String) :
    dget a k = dget b k := by
  rw [dictEqb, List.all_eq_true] at h
  by_cases hk : k ∈ dkeys a ++ dkeys b
  · exact eq_of_beq (h k hk)
  · rw [List.mem_append] at hk
    push_neg at hk
    rw [dget_eq_none_of_not_mem hk.1, dget_eq_none_of_not_mem hk.2]

theorem dictEqb_nil_left {d : Dict} (h : dictEqb [] d = true) : d = [] := by
  cases d with
  | nil => rfl
  | cons kv rest =>
    have h2 := dictEqb_dget h kv.1
    rw [dget_nil, dget_cons] at h2
    simp at h2

theorem mem_dkeys_of_mem {d : Dict} {k v : String} (h : (k, v) ∈ d) :
    k ∈ dkeys d := List.mem_map.mpr ⟨(k, v), h, rfl⟩

theorem dget_eq_of_mem_nodup {d : Dict} {k v : String}
    (hnd : (dkeys d).Nodup) (hm : (k, v) ∈ d) : dget d k = some v := by
  induction d with
  | nil => cases hm
  | cons kv rest ih =>
    have hnd2 : kv.1 ∉ dkeys rest ∧ (dkeys rest).Nodup :=
      List.nodup_cons.mp (by simpa [dkeys] using hnd)
    rw [dget_cons]
    rcases List.mem_cons.mp hm with h | h
    · rw [← h]
      simp
    · have hk : k ∈ dkeys rest := mem_dkeys_of_mem h
      have hne : kv.1 ≠ k := fun he => hnd2.1 (he ▸ hk)
      simp only [hne, beq_iff_eq, if_false]
      exact ih hnd2.2 h

theorem mem_unique_of_nodup_keys {d : Dict} {k v w : String}
    (hnd : (dkeys d).Nodup) (h1 : (k, v) ∈ d) (h2 : (k, w) ∈ d) : v = w := by
  have e1 := dget_eq_of_mem_nodup hnd h1
  have e2 := dget_eq_of_mem_nodup hnd h2
  rw [e1] at e2
  exact Option.some.inj e2

/-! ### Queue-payload extractors -/

/-- All keys queued for tag removal across an operation list. -/
def removed_tag_keys (ops : List Op) : List String :=
  ops.foldr (fun op acc =>
    match op with
    | Op.removeTags ks => ks ++ acc
    | _ => acc) []

/-- All key/value pairs queued for tag addition across an operation list. -/
def added_tags (ops : List Op) : Dict :=
  ops.foldr (fun op acc =>
    match op with
    | Op.setTags ts => ts ++ acc
    | _ => acc) []

/-- All target ids queued for removal across an operation list. -/
def removed_target_ids (ops : List Op) : List String :=
  ops.foldr (fun op acc =>
    match op with
    | Op.removeTargets ids => ids ++ acc
    | _ => acc) []

/-- All formatted targets queued for a put across an operation list. -/
def put_target_payload (ops : List Op) : List FormattedTarget :=
  ops.foldr (fun op acc =>
    match op with
    | Op.putTargets ts => ts ++ acc
    | _ => acc) []

theorem removed_tag_keys_pair (R : List String) (A : Dict) :
    removed_tag_keys ((if R.isEmpty then [] else [Op.removeTags R]) ++
      (if A.isEmpty then [] else [Op.setTags A])) = R := by
  by_cases hR : R.isEmpty <;> by_cases hA : A.isEmpty <;>
    simp_all [removed_tag_keys, List.isEmpty_iff]

theorem added_tags_pair (R : List String) (A : Dict) :
    added_tags ((if R.isEmpty then [] else [Op.removeTags R]) ++
      (if A.isEmpty then [] else [Op.setTags A])) = A := by
  by_cases hR : R.isEmpty <;> by_cases hA : A.isEmpty <;>
    simp_all [added_tags, List.isEmpty_iff]

theorem removed_target_ids_pair (R : List String) (P : List FormattedTarget) :
    removed_target_ids ((if R.isEmpty then [] else [Op.removeTargets R]) ++
      (if P.isEmpty then [] else [Op.putTargets P])) = R := by
  by_cases hR : R.isEmpty <;> by_cases hP : P.isEmpty <;>
    simp_all [removed_target_ids, List.isEmpty_iff]

theorem put_target_payload_pair (R : List String) (P : List FormattedTarget) :
    put_target_payload ((if R.isEmpty then [] else [Op.removeTargets R]) ++
      (if P.isEmpty then [] else [Op.putTargets P])) = P := by
  by_cases hR : R.isEmpty <;> by_cases hP : P.isEmpty <;>
    simp_all [put_target_payload, List.isEmpty_iff]

/-! ### Claim theorems -/

/-- C10: on an upsert whose previous state records a (truthy) rule name, the
effective name of line 83 is that previous name — the desired-config name
and the generated fallback are ignored — and the rename-check condition of
line 127 is never satisfiable, for any inputs at all. -/
theorem C10_prev_name_wins (p c : Option String) (g s : String)
    (hp : p = some s) (hs : s ≠ "") :
    effective_name p c g = s ∧
    ∀ (p2 c2 : Option String) (g2 : String), rename_rejected p2 c2 g2 = false := by
  constructor
  · subst hp
    simp [effective_name, truthyOptStr, hs]
  · intro p2 c2 g2
    cases p2 with
    | none => simp [rename_rejected, truthyOptStr]
    | some s2 =>
      by_cases h : s2 = ""
      · simp [rename_rejected, truthyOptStr, h]
      · simp [rename_rejected, truthyOptStr, effective_name, h]

/-- Witness for C10 at a concrete previous name. -/
theorem C10_prev_name_wins_witness :
    ((some "orders-rule" : Option String) = some "orders-rule" ∧
      "orders-rule" ≠ "") ∧
    (effective_name (some "orders-rule") (some "new-name") "generated-name" =
        "orders-rule" ∧
      ∀ (p2 c2 : Option String) (g2 : String),
        rename_rejected p2 c2 g2 = false) :=
  ⟨⟨rfl, by decide⟩,
    C10_prev_name_wins (some "orders-rule") (some "new-name") "generated-name"
      "orders-rule" rfl (by decide)⟩

/-- C2 fails on the code: with previous name `"foo"` and desired name
`"bar"`, line 83 resolves the effective name to `"foo"` (the previous name
takes precedence), so the rename check of line 127 compares `"foo"` with
`"foo"` and never fires — no permanent error is raised and reconciliation
proceeds under the old name, contrary to the claim (and to the source's own
comment at line 126 announcing failure on non-editable-field changes). -/
theorem C2_rename_check_dead :
    effective_name (some "foo") (some "bar") "generated-name" = "foo" ∧
    rename_rejected (some "foo") (some "bar") "generated-name" = false := by
  decide

/-- C5 fails at runtime: a put-targets batch response with one failed entry
whose code `ConcurrentModificationException` is retryable reaches the
intended whole-batch-retry branch (lines 514-517), but the branch's
`eh.add_log(..., {"error": str(e)}, ...)` reads the unassigned local `e`
and raises, so the operation is not retried — the exception escapes to the
top-level generic handler instead. -/
theorem C5_put_targets_partial_failure_raises :
    "ConcurrentModificationException" ∈ put_targets_retry_codes ∧
    put_targets_handle_response
      { failedEntryCount := 1
        failedEntries := [{ targetId := "t1"
                            errorCode := "ConcurrentModificationException"
                            errorMessage := "concurrent update" }] } =
      ExecOutcome.raised PyError.nameError := by
  decide

/-- C6 half-holds: deleting the core rule treats `ResourceNotFoundException`
as success (lines 773-775), but a bulk target-removal whose failed entries
all report `ResourceNotFoundException` reaches line 560, whose
`str(e)` reads an unassigned local and raises before the `return 0` of
line 561 — that path is a crash, not success. -/
theorem C6_delete_absent_success_and_bulk_crash :
    delete_rule_outcome DeleteRuleResp.resourceNotFoundException =
      ExecOutcome.success ∧
    remove_targets_handle_response
      { failedEntryCount := 1
        failedEntries := [{ targetId := "t3"
                            errorCode := "ResourceNotFoundException"
                            errorMessage := "rule or target gone" }] } =
      ExecOutcome.raised PyError.nameError := by
  decide

/-- Counting helper: filtering out every element satisfying `p` and then
appending one element satisfying `p` leaves exactly one such element. -/
theorem countP_filter_append_one {α : Type} (p : α → Bool) (l : List α) (x : α)
    (hx : p x = true) :
    ((l.filter (fun y => !(p y))) ++ [x]).countP p = 1 := by
  rw [List.countP_append]
  have h0 : (l.filter (fun y => !(p y))).countP p = 0 := by
    rw [List.countP_eq_zero]
    intro a ha
    have h2 := (List.mem_filter.mp ha).2
    simp only [Bool.not_eq_true'] at h2
    simp [h2]
  simp [h0, List.countP_cons, hx]

/-- C7: the SNS and SQS policy rewrites first drop every prior statement
with the well-known statement identifier and then append the new one, so
the written-back statement list contains exactly one statement with that
identifier, whatever the prior policy held; and the Lambda grant treats a
`ResourceConflictException` (identical statement already present) as
success, not error. -/
theorem C7_grant_idempotent :
    (∀ (stmts : List PolicyStatement) (topicArn : String),
      (sns_rewrite stmts topicArn).countP
        (fun s => s.sid == some sns_statement_id) = 1) ∧
    (∀ (stmts : List PolicyStatement) (queueArn rule_name sourceArn : String),
      (sqs_rewrite stmts queueArn rule_name sourceArn).countP
        (fun s => s.sid == some (sqs_statement_id rule_name)) = 1) ∧
    add_lambda_permission_outcome
      (AddPermissionResp.clientError "ResourceConflictException") =
      ExecOutcome.success := by
  refine ⟨fun stmts topicArn => ?_, fun stmts q rn ra => ?_, by decide⟩
  · simp only [sns_rewrite]
    exact countP_filter_append_one _ stmts _ (by simp [sns_statement_to_add])
  · simp only [sqs_rewrite]
    exact countP_filter_append_one _ stmts _ (by simp [sqs_statement_to_add])

/-- C9 half-fails: an SNS grant whose fetched topic policy is absent or has
no `"Statement"` key raises `TypeError` (line 675 iterates over `None`,
since line 674 uses `.get("Statement")` with no default) instead of
treating the policy as empty; the SQS variant (line 733, default `[]`)
does treat it as empty and writes back the new statement. -/
theorem C9_empty_policy_sns_crashes_sqs_ok :
    sns_build_policy_statements none "arn:aws:sns:us-east-1:123456789012:t" =
      Except.error PyError.typeError ∧
    sqs_build_policy_statements none "arn:aws:sqs:us-east-1:123456789012:q"
        "my-rule" "arn:aws:events:us-east-1:123456789012:rule/default/my-rule" =
      Except.ok [sqs_statement_to_add "arn:aws:sqs:us-east-1:123456789012:q"
        "my-rule" "arn:aws:events:us-east-1:123456789012:rule/default/my-rule"] := by
  constructor
  · rfl
  · rfl

/-- C3: the target facet queues for removal exactly the observed ids absent
from the desired key set (in observed order), queues every desired target —
rebuilt into wire format — for a put unconditionally (the `not in
remove_targets` filter of line 276 never drops a desired key), and the
wire build maps each optional field independently, including the nested
HTTP-parameter and retry-policy structures exactly when at least one of
their sub-fields is present. -/
theorem C3_targets_replace_all :
    ∀ (d : List (String × TargetSpec)) (o : List String),
      removed_target_ids (targets_diff d o) =
        o.filter (fun i => !((d.map (·.1)).contains i)) ∧
      put_target_payload (targets_diff d o) =
        d.map (fun kv => build_target kv.1 kv.2) ∧
      ∀ (id : String) (t : TargetSpec),
        (build_target id t).httpParameters.isSome =
          (t.http_path_parameter_values.isSome
            || t.http_header_parameters.isSome
            || t.http_query_string_parameters.isSome) ∧
        (build_target id t).retryPolicy.isSome =
          (t.maximum_retry_attempts.isSome
            || t.maximum_event_age_in_seconds.isSome) ∧
        (build_target id t).id = id ∧
        (build_target id t).arn = t.arn ∧
        (build_target id t).roleArn = t.role_arn ∧
        (build_target id t).input = t.input ∧
        (build_target id t).inputPath = t.input_path ∧
        (build_target id t).deadLetterConfigArn = strTruthy t.dead_letter_queue_arn := by
  intro d o
  have hvac : (d.filter (fun kv =>
      !((o.filter (fun i => !((d.map (·.1)).contains i))).contains kv.1))) = d := by
    rw [List.filter_eq_self]
    intro kv hkv
    have h0 : kv.1 ∈ d.map (·.1) := List.mem_map.mpr ⟨kv, hkv, rfl⟩
    have hkey : (d.map (·.1)).contains kv.1 = true := by
      simpa using h0
    cases hcont : (o.filter (fun i => !((d.map (·.1)).contains i))).contains kv.1 with
    | false => simp [hcont]
    | true =>
      exfalso
      have hm : kv.1 ∈ o.filter (fun i => !((d.map (·.1)).contains i)) := by
        simpa using hcont
      have h2 := (List.mem_filter.mp hm).2
      rw [hkey] at h2
      simp at h2
  refine ⟨?_, ?_, ?_⟩
  · simp only [targets_diff]
    rw [removed_target_ids_pair]
  · simp only [targets_diff]
    rw [put_target_payload_pair, hvac]
  · intro id t
    refine ⟨?_, ?_, rfl, rfl, rfl, rfl, rfl, rfl⟩
    · cases h : (t.http_path_parameter_values.isSome
          || t.http_header_parameters.isSome
          || t.http_query_string_parameters.isSome) <;>
        simp [build_target, h]
    · cases h : (t.maximum_retry_attempts.isSome
          || t.maximum_event_age_in_seconds.isSome) <;>
        simp [build_target, h]

/-- C4: the tag facet queues for removal exactly the observed keys absent
from the desired mapping, queues for addition exactly the desired pairs
whose value differs from (or is absent in) the observed mapping, leaves
keys identical in both untouched, and with no desired tags queues removal
of all observed keys. -/
theorem C4_tags_diff_exact (d c : Dict)
    (hd : (dkeys d).Nodup) (hc : (dkeys c).Nodup) (hdne : d ≠ []) :
    (∀ k, k ∈ removed_tag_keys (tags_diff (some d) c) ↔
      (k ∈ dkeys c ∧ k ∉ dkeys d)) ∧
    (∀ k v, (k, v) ∈ added_tags (tags_diff (some d) c) ↔
      ((k, v) ∈ d ∧ dget c k ≠ some v)) ∧
    (∀ k v, (k, v) ∈ d → (k, v) ∈ c →
      k ∉ removed_tag_keys (tags_diff (some d) c) ∧
      ∀ w, (k, w) ∉ added_tags (tags_diff (some d) c)) ∧
    (∀ c2 : Dict, c2 ≠ [] → tags_diff none c2 = [Op.removeTags (dkeys c2)]) := by
  have htruthy : tagsTruthy (some d) = true := by
    cases d with
    | nil => exact absurd rfl hdne
    | cons kv rest => simp [tagsTruthy]
  have hnone : ∀ c2 : Dict, c2 ≠ [] → tags_diff none c2 = [Op.removeTags (dkeys c2)] := by
    intro c2 hc2
    cases c2 with
    | nil => exact absurd rfl hc2
    | cons kv rest => simp [tags_diff, tagsTruthy]
  by_cases heq : dictEqb d c = true
  · have hdiff : tags_diff (some d) c = [] := by
      simp [tags_diff, htruthy, heq]
    refine ⟨?_, ?_, ?_, hnone⟩
    · intro k
      rw [hdiff]
      constructor
      · intro hmem
        simp [removed_tag_keys] at hmem
      · rintro ⟨hkc, hkd⟩
        refine absurd ((dget_isSome_iff d k).mp ?_) hkd
        rw [dictEqb_dget heq k]
        exact (dget_isSome_iff c k).mpr hkc
    · intro k v
      rw [hdiff]
      constructor
      · intro hmem
        simp [added_tags] at hmem
      · rintro ⟨hkd, hne⟩
        refine absurd ?_ hne
        rw [← dictEqb_dget heq k]
        exact dget_eq_of_mem_nodup hd hkd
    · intro k v _ _
      rw [hdiff]
      constructor
      · intro hmem
        simp [removed_tag_keys] at hmem
      · intro w hmem
        simp [added_tags] at hmem
  · have heqf : dictEqb d c = false := by
      cases hb : dictEqb d c with
      | false => rfl
      | true => exact absurd hb heq
    have hform : tags_diff (some d) c =
        (if ((dkeys c).filter (fun k => !((dkeys d).contains k))).isEmpty then []
          else [Op.removeTags ((dkeys c).filter (fun k => !((dkeys d).contains k)))]) ++
        (if (d.filter (fun kv => !(dget c kv.1 == some kv.2))).isEmpty then []
          else [Op.setTags (d.filter (fun kv => !(dget c kv.1 == some kv.2)))]) := by
      simp [tags_diff, htruthy, heqf]
    refine ⟨?_, ?_, ?_, hnone⟩
    · intro k
      rw [hform, removed_tag_keys_pair]
      simp [List.mem_filter]
    · intro k v
      rw [hform, added_tags_pair]
      simp [List.mem_filter]
    · intro k v hkd hkc
      constructor
      · rw [hform, removed_tag_keys_pair]
        intro hmem
        have h2 := (List.mem_filter.mp hmem).2
        have hk : (dkeys d).contains k = true := by
          simpa using mem_dkeys_of_mem hkd
        rw [hk] at h2
        simp at h2
      · intro w
        rw [hform, added_tags_pair]
        intro hmem
        have h3 := List.mem_filter.mp hmem
        have hww : w = v := mem_unique_of_nodup_keys hd h3.1 hkd
        have h4 := h3.2
        rw [hww] at h4
        have h5 : dget c k = some v := dget_eq_of_mem_nodup hc hkc
        rw [h5] at h4
        simp at h4

/-- Witness for C4 on the spec's own example: desired `{a:1, b:2}`,
observed `{b:2, c:3}`. -/
theorem C4_tags_diff_exact_witness :
    ((dkeys [("a", "1"), ("b", "2")]).Nodup ∧
      (dkeys [("b", "2"), ("c", "3")]).Nodup ∧
      ([("a", "1"), ("b", "2")] : Dict) ≠ []) ∧
    ((∀ k, k ∈ removed_tag_keys
        (tags_diff (some [("a", "1"), ("b", "2")]) [("b", "2"), ("c", "3")]) ↔
      (k ∈ dkeys [("b", "2"), ("c", "3")] ∧ k ∉ dkeys [("a", "1"), ("b", "2")])) ∧
    (∀ k v, (k, v) ∈ added_tags
        (tags_diff (some [("a", "1"), ("b", "2")]) [("b", "2"), ("c", "3")]) ↔
      ((k, v) ∈ ([("a", "1"), ("b", "2")] : Dict) ∧
        dget [("b", "2"), ("c", "3")] k ≠ some v)) ∧
    (∀ k v, (k, v) ∈ ([("a", "1"), ("b", "2")] : Dict) →
        (k, v) ∈ ([("b", "2"), ("c", "3")] : Dict) →
      k ∉ removed_tag_keys
        (tags_diff (some [("a", "1"), ("b", "2")]) [("b", "2"), ("c", "3")]) ∧
      ∀ w, (k, w) ∉ added_tags
        (tags_diff (some [("a", "1"), ("b", "2")]) [("b", "2"), ("c", "3")])) ∧
    (∀ c2 : Dict, c2 ≠ [] → tags_diff none c2 = [Op.removeTags (dkeys c2)])) :=
  ⟨⟨by decide, by decide, by decide⟩,
    C4_tags_diff_exact [("a", "1"), ("b", "2")] [("b", "2"), ("c", "3")]
      (by decide) (by decide) (by decide)⟩

/-! ### C1: parity behaviour of the whole diff pass -/

def c1_target_spec : TargetSpec :=
  { arn := some "arn:aws:lambda:us-east-1:123456789012:function:handler" }

/-- A desired configuration whose single target `t1` is already attached
remotely, with core attributes and tags also at parity. -/
def c1_attrs : Attributes :=
  { core := [("Name", "my-rule"), ("State", "ENABLED")]
    tags := none
    targets := [("t1", c1_target_spec)] }

def c1_resp : Dict :=
  [("Name", "my-rule"),
   ("Arn", "arn:aws:events:us-east-1:123456789012:rule/my-rule"),
   ("State", "ENABLED"),
   ("EventBusName", "default")]

/-- C1 as stated is false: with the observed snapshot at parity with the
desired state on all three facets (comparable core attributes equal, tag
mappings equal — both empty — and target id sets equal), the diff pass
still queues a `put_targets` operation, because every desired target is
re-put unconditionally (lines 276-301). -/
theorem C1_counterexample :
    (dictEqb c1_attrs.core (comparable_response c1_attrs.core c1_resp) = true ∧
     dictEqb (c1_attrs.tags.getD []) [] = true ∧
     ["t1"].all (fun i => (c1_attrs.targets.map (·.1)).contains i) = true ∧
     (c1_attrs.targets.map (·.1)).all (fun k => ["t1"].contains k) = true) ∧
    get_rule_diff c1_attrs c1_resp [] ["t1"] =
      [Op.putTargets [build_target "t1" c1_target_spec]] ∧
    get_rule_diff c1_attrs c1_resp [] ["t1"] ≠ [] := by
  decide

/-- C1 amended: at full three-facet parity the diff pass queues no core,
tag, or target-removal operation, but still queues one `put_targets`
operation rebuilding every desired target; hence it queues zero operations
precisely when the desired target list is empty (and second-run
idempotence holds exactly for configurations without targets). -/
theorem C1_parity_diff (attrs : Attributes) (resp : Dict) (cur : Dict)
    (obs : List String)
    (hcore : dictEqb attrs.core (comparable_response attrs.core resp) = true)
    (htags : dictEqb (attrs.tags.getD []) cur = true)
    (hobs : obs.all (fun i => (attrs.targets.map (·.1)).contains i) = true)
    (_hdes : (attrs.targets.map (·.1)).all (fun k => obs.contains k) = true) :
    get_rule_diff attrs resp cur obs =
      if attrs.targets.isEmpty then []
      else [Op.putTargets (attrs.targets.map (fun kv => build_target kv.1 kv.2))] := by
  have hcoreops : core_diff attrs.core resp = [] := by
    simp [core_diff, hcore]
  have htagops : tags_diff attrs.tags cur = [] := by
    cases hat : attrs.tags with
    | none =>
      have hcur : cur = [] := dictEqb_nil_left (by simpa [hat] using htags)
      simp [tags_diff, tagsTruthy, hcur]
    | some l =>
      cases l with
      | nil =>
        have hcur : cur = [] := dictEqb_nil_left (by simpa [hat] using htags)
        simp [tags_diff, tagsTruthy, hcur]
      | cons kv rest =>
        have hl : dictEqb (kv :: rest) cur = true := by simpa [hat] using htags
        simp [tags_diff, tagsTruthy, hl]
  have hremove : obs.filter (fun i => !((attrs.targets.map (·.1)).contains i)) = [] := by
    rw [List.filter_eq_nil_iff]
    intro i hi
    have h2 : (attrs.targets.map (·.1)).contains i = true :=
      List.all_eq_true.mp hobs i hi
    rw [h2]
    decide
  have htargetops : targets_diff attrs.targets obs =
      if attrs.targets.isEmpty then []
      else [Op.putTargets (attrs.targets.map (fun kv => build_target kv.1 kv.2))] := by
    simp only [targets_diff, hremove]
    cases attrs.targets with
    | nil => simp
    | cons a rest => simp
  unfold get_rule_diff
  rw [hcoreops, htagops, htargetops]
  simp

/-- Witness for the amended C1 at the parity input of the counterexample. -/
theorem C1_parity_diff_witness :
    (dictEqb c1_attrs.core (comparable_response c1_attrs.core c1_resp) = true ∧
     dictEqb (c1_attrs.tags.getD []) [] = true ∧
     ["t1"].all (fun i => (c1_attrs.targets.map (·.1)).contains i) = true ∧
     (c1_attrs.targets.map (·.1)).all (fun k => ["t1"].contains k) = true) ∧
    get_rule_diff c1_attrs c1_resp [] ["t1"] =
      (if c1_attrs.targets.isEmpty then []
       else [Op.putTargets (c1_attrs.targets.map (fun kv => build_target kv.1 kv.2))]) :=
  ⟨⟨by decide, by decide, by decide, by decide⟩,
    C1_parity_diff c1_attrs c1_resp [] ["t1"]
      (by decide) (by decide) (by decide) (by decide)⟩

/-! ### C8: grouping of newly-put targets by destination kind -/

/-- The destination handles of lambda-classified targets, in order. -/
def lambda_arns (ts : List FormattedTarget) : List String :=
  ts.filterMap (fun t => t.arn.bind
    (fun a => if analyze_type_of_arn a == "lambda" then some a else none))

/-- The destination handles of sns-classified targets, in order. -/
def sns_arns (ts : List FormattedTarget) : List String :=
  ts.filterMap (fun t => t.arn.bind
    (fun a => if analyze_type_of_arn a == "sns" then some a else none))

/-- The destination handles of sqs-classified targets, in order. -/
def sqs_arns (ts : List FormattedTarget) : List String :=
  ts.filterMap (fun t => t.arn.bind
    (fun a => if analyze_type_of_arn a == "sqs" then some a else none))

theorem classify_targets_eq (ts : List FormattedTarget)
    (h : ∀ t ∈ ts, t.arn.isSome = true) :
    classify_targets ts = Except.ok (lambda_arns ts, sns_arns ts, sqs_arns ts) := by
  induction ts with
  | nil => rfl
  | cons t rest ih =>
    have ht := h t (List.mem_cons_self t rest)
    have hrest : ∀ x ∈ rest, x.arn.isSome = true :=
      fun x hx => h x (List.mem_cons_of_mem t hx)
    obtain ⟨a, ha⟩ := Option.isSome_iff_exists.mp ht
    simp only [classify_targets, ha, ih hrest]
    by_cases h1 : analyze_type_of_arn a = "lambda"
    · simp [lambda_arns, sns_arns, sqs_arns, List.filterMap_cons, ha, h1]
    · by_cases h2 : analyze_type_of_arn a = "sns"
      · simp [lambda_arns, sns_arns, sqs_arns, List.filterMap_cons, ha, h1, h2]
      · by_cases h3 : analyze_type_of_arn a = "sqs"
        · simp [lambda_arns, sns_arns, sqs_arns, List.filterMap_cons, ha, h1, h2, h3]
        · simp [lambda_arns, sns_arns, sqs_arns, List.filterMap_cons, ha, h1, h2, h3]

theorem mem_kind_arns {kind : String} {ts : List FormattedTarget} {a : String}
    (hmem : a ∈ ts.filterMap (fun t => t.arn.bind
      (fun x => if analyze_type_of_arn x == kind then some x else none))) :
    analyze_type_of_arn a = kind := by
  obtain ⟨t, htmem, hft⟩ := List.mem_filterMap.mp hmem
  obtain ⟨b, hb, hif⟩ := Option.bind_eq_some.mp hft
  split at hif
  next hcond =>
    cases Option.some.inj hif
    exact eq_of_beq hcond
  next => exact Option.noConfusion hif

/-- C8: the permission propagator classifies each newly-put target by the
namespace prefix of its destination ARN, queues at most one grant
operation per kind — carrying exactly the destination handles of that
kind, in order — and generates no operation for handles of any other
kind. -/
theorem C8_classify_and_group (ts : List FormattedTarget)
    (h : ∀ t ∈ ts, t.arn.isSome = true) :
    add_permissions_for_targets ts =
      Except.ok
        ((if (lambda_arns ts).isEmpty then []
            else [Op.addLambdaPermissions (lambda_arns ts)]) ++
         (if (sns_arns ts).isEmpty then []
            else [Op.addSnsPermissions (sns_arns ts)]) ++
         (if (sqs_arns ts).isEmpty then []
            else [Op.addSqsPermissions (sqs_arns ts)])) ∧
    ∀ a : String, analyze_type_of_arn a = "not_supported_or_unnecessary" →
      a ∉ lambda_arns ts ∧ a ∉ sns_arns ts ∧ a ∉ sqs_arns ts := by
  constructor
  · simp only [add_permissions_for_targets, classify_targets_eq ts h]
  · intro a hna
    refine ⟨fun hmem => ?_, fun hmem => ?_, fun hmem => ?_⟩
    · simp only [lambda_arns] at hmem
      have hk := mem_kind_arns hmem
      rw [hna] at hk
      exact absurd hk (by decide)
    · simp only [sns_arns] at hmem
      have hk := mem_kind_arns hmem
      rw [hna] at hk
      exact absurd hk (by decide)
    · simp only [sqs_arns] at hmem
      have hk := mem_kind_arns hmem
      rw [hna] at hk
      exact absurd hk (by decide)

def c8_targets : List FormattedTarget :=
  [build_target "t1" { arn := some "arn:aws:lambda:us-east-1:123456789012:function:f" },
   build_target "t2" { arn := some "arn:aws:sns:us-east-1:123456789012:topic-a" },
   build_target "t3" { arn := some "arn:aws:states:us-east-1:123456789012:stateMachine:m" }]

/-- Witness for C8: a lambda target, an sns target, and an unsupported
(Step Functions) target. -/
theorem C8_classify_and_group_witness :
    (∀ t ∈ c8_targets, t.arn.isSome = true) ∧
    (add_permissions_for_targets c8_targets =
      Except.ok
        ((if (lambda_arns c8_targets).isEmpty then []
            else [Op.addLambdaPermissions (lambda_arns c8_targets)]) ++
         (if (sns_arns c8_targets).isEmpty then []
            else [Op.addSnsPermissions (sns_arns c8_targets)]) ++
         (if (sqs_arns c8_targets).isEmpty then []
            else [Op.addSqsPermissions (sqs_arns c8_targets)])) ∧
     ∀ a : String, analyze_type_of_arn a = "not_supported_or_unnecessary" →
       a ∉ lambda_arns c8_targets ∧ a ∉ sns_arns c8_targets ∧ a ∉ sqs_arns c8_targets) :=
  ⟨by decide, C8_classify_and_group c8_targets (by decide)⟩

end EventBridgeRule
